import Mathlib

/-!
Verification of the device-discovery packet codec and discovery protocol of
the jarvis repository (src/Device/Device.rs), over a shallow embedding.

Byte buffers are `List Nat` (each entry a `u8` value). Machine casts are
explicit: `as u8` becomes `% 256`. Fallible Rust functions that can panic
are embedded in `Option`: `none` models a panic, `some r` a normal return
of `r`.
-/

namespace Jarvis

/-- enum Status from Device.rs. -/
inductive Status where
  | on
  | off
  deriving DecidableEq

/-- enum device_error from Device.rs. -/
inductive device_error where
  | could_not_setup_devices
  | could_not_send_setup_command
  | could_not_unserialize_device_packet
  | could_not_recieve_device_packet
  deriving DecidableEq

/-- enum checksum_error from Device.rs. -/
inductive checksum_error where
  | mismatch
  deriving DecidableEq

/-- enum data_recieve_error from Device.rs. -/
inductive data_recieve_error where
  | protocol_error
  | could_not_recieve_data
  | possible_corrupted_data
  | empty_buffer
  | mismatch_checksum
  deriving DecidableEq

/-- struct Device from Device.rs. -/
structure Device where
  device_id : Nat
  status : Status
  deriving DecidableEq

/-- One step of the (reflected) CRC-32 bit loop: shift right one bit and,
if the dropped bit was set, xor in the reversed IEEE polynomial
0xEDB88320. This is the LSB-first algorithm computed by
crc32::checksum_ieee of the crc crate used by Device.rs. -/
def crc32_step (s : Nat) : Nat :=
  if s % 2 = 1 then (s / 2) ^^^ 0xEDB88320 else s / 2

/-- Fold one message byte into the CRC-32 state: xor the byte into the low
bits and run eight bit steps. -/
def crc32_byte (s b : Nat) : Nat := crc32_step^[8] (s ^^^ b)

/-- Run the CRC-32 state machine over a byte list from state `s`. -/
def crc32_run (s : Nat) (bs : List Nat) : Nat := bs.foldl crc32_byte s

/-- CRC-32 (IEEE 802.3) of a byte list: initial state 0xFFFFFFFF, final
complement. Matches crc32::checksum_ieee of the crc crate. -/
def checksum_ieee (bs : List Nat) : Nat := crc32_run 0xFFFFFFFF bs ^^^ 0xFFFFFFFF

/-- get_checksum from Device.rs: crc32::checksum_ieee(bytes). -/
def get_checksum (bytes : List Nat) : Nat := checksum_ieee bytes

/-- Big-endian 32-bit value of four bytes, composed with shifts and ors
exactly as validate_checksum in Device.rs composes the stored checksum. -/
def be32 (b3 b2 b1 b0 : Nat) : Nat :=
  (b3 <<< 24) ||| (b2 <<< 16) ||| (b1 <<< 8) ||| b0

/-- validate_checksum from Device.rs. `none` models a panic:
the u8 addition `buffer[1] + 2` overflowing (buffer[1] at least 254),
`split_at(buffer[1] + 2)` falling outside the buffer, and the usize
subtraction `len - 4` underflowing when the declared span is shorter
than 4 bytes, in the order the Rust code evaluates them. -/
def validate_checksum (buffer : List Nat) : Option (Except checksum_error Unit) :=
  if 4 < buffer.length then
    if 255 < buffer.getD 1 0 + 2 then none
    else if buffer.length < buffer.getD 1 0 + 2 then none
    else
      let buffer_without_trailing_zeros := buffer.take (buffer.getD 1 0 + 2)
      if buffer_without_trailing_zeros.length < 4 then none
      else
        let pre := buffer_without_trailing_zeros.take (buffer_without_trailing_zeros.length - 4)
        let tr := buffer_without_trailing_zeros.drop (buffer_without_trailing_zeros.length - 4)
        let calculated := get_checksum pre
        let checksum := be32 (tr.getD 0 0) (tr.getD 1 0) (tr.getD 2 0) (tr.getD 3 0)
        if checksum = calculated then some (Except.ok ())
        else some (Except.error checksum_error.mismatch)
  else some (Except.error checksum_error.mismatch)

/-- create_buffer_from_device from Device.rs. -/
def create_buffer_from_device (buffer : List Nat) : Option Device :=
  if 2 < buffer.length then some ⟨buffer.getD 2 0, Status.on⟩ else none

/-- get_device_from_bytes from Device.rs. The outer `Option` models a
panic propagated out of validate_checksum; `some r` is a normal return. -/
def get_device_from_bytes (buffer : List Nat) : Option (Except data_recieve_error Device) :=
  match buffer with
  | [] => some (Except.error data_recieve_error.empty_buffer)
  | first :: _ =>
    if first = 165 then
      match validate_checksum buffer with
      | none => none
      | some (Except.ok _) =>
        match create_buffer_from_device buffer with
        | some result => some (Except.ok result)
        | none => some (Except.error data_recieve_error.possible_corrupted_data)
      | some (Except.error _) => some (Except.error data_recieve_error.mismatch_checksum)
    else some (Except.error data_recieve_error.protocol_error)

/-- One transport receive outcome presented to retrieve_devices: `none`
models recv_from returning Err, `some buf` a successful receive where
`buf` is the content of the receive buffer afterwards. The list is the
sequence of outcomes the transport produces; when it is exhausted the
next blocking receive fails (no more data ever arrives). -/
abbrev RecvStream := List (Option (List Nat))

/-- retrieve_devices from Device.rs: recursively receive and decode,
accumulating devices. The outer `Option` propagates a decode panic. -/
def retrieve_devices : RecvStream → Option (Except device_error (List Device))
  | [] => some (Except.error device_error.could_not_recieve_device_packet)
  | none :: _ => some (Except.error device_error.could_not_recieve_device_packet)
  | some b :: rest =>
    match get_device_from_bytes b with
    | none => none
    | some (Except.error _) =>
      some (Except.error device_error.could_not_unserialize_device_packet)
    | some (Except.ok d) =>
      match retrieve_devices rest with
      | none => none
      | some (Except.ok ds) => some (Except.ok (d :: ds))
      | some (Except.error _) => some (Except.ok [d])

/-- set_up_command_broadcast from Device.rs, with the current time's
hour/minute/second as explicit arguments (the Rust reads them from
time::now()). The `as u8` casts become `% 256`. The checksum is computed
over a 7-byte array whose command-kind byte is 5, while the emitted
frame's command-kind byte is 9; the last trailer byte is
`(checksum | 0x00ff) as u8`. -/
def set_up_command_broadcast (hour minute second : Nat) : List Nat :=
  let h := hour % 256
  let m := minute % 256
  let s := second % 256
  let command_without_checksum : List Nat := [165, 5, 0, 0, h, m, s]
  let checksum := get_checksum command_without_checksum
  [165, 9, 0, 0, h, m, s,
    (checksum >>> 24) % 256, (checksum >>> 16) % 256, (checksum >>> 8) % 256,
    (checksum ||| 0x00ff) % 256]

/-- The transport of set_up_devices (struct Channel of Communication),
reduced to the behaviour the discovery protocol observes: the outcome of
connecting the write socket to a given address, the outcome of sending a
given byte sequence, and the stream of receive outcomes of the read
socket. -/
structure Channel where
  write_connect : String → Except Unit Unit
  write_send : List Nat → Except Unit Unit
  read_recv : RecvStream

/-- set_up_devices from Device.rs: connect the write socket to the fixed
broadcast address, send the discovery command, then collect devices. -/
def set_up_devices (com_channel : Channel) (hour minute second : Nat) :
    Option (Except device_error (List Device)) :=
  match com_channel.write_connect "255.255.255.255:62344" with
  | Except.ok _ =>
    match com_channel.write_send (set_up_command_broadcast hour minute second) with
    | Except.ok _ => retrieve_devices com_channel.read_recv
    | Except.error _ => some (Except.error device_error.could_not_setup_devices)
  | Except.error _ => some (Except.error device_error.could_not_send_setup_command)

deriving instance DecidableEq for Except

/-- Follows the spec's words (for C2): the checksum-bearing span is
`buffer[0 .. buffer[1]+2]`, whose last 4 bytes, read big-endian, must
equal the CRC-32 of the span minus those 4 bytes; buffers of 4 or fewer
bytes always fail. A total function, as the spec describes one. -/
def spec_validate_checksum (buffer : List Nat) : Except checksum_error Unit :=
  if buffer.length ≤ 4 then Except.error checksum_error.mismatch
  else
    let span := buffer.take (buffer.getD 1 0 + 2)
    let tr := span.drop (span.length - 4)
    let stored := be32 (tr.getD 0 0) (tr.getD 1 0) (tr.getD 2 0) (tr.getD 3 0)
    if stored = checksum_ieee (span.take (span.length - 4)) then Except.ok ()
    else Except.error checksum_error.mismatch

/-- Follows the spec's words (for C4): the five-case decode analysis. The
third case reads "MismatchChecksum if validate_checksum fails", which in
the spec's total-function reading means validate_checksum did not return
Ok. -/
def spec_decode (buffer : List Nat) : Except data_recieve_error Device :=
  if buffer.length = 0 then Except.error data_recieve_error.empty_buffer
  else if buffer.getD 0 0 ≠ 165 then Except.error data_recieve_error.protocol_error
  else if validate_checksum buffer ≠ some (Except.ok ()) then
    Except.error data_recieve_error.mismatch_checksum
  else if buffer.length ≤ 2 then Except.error data_recieve_error.possible_corrupted_data
  else Except.ok ⟨buffer.getD 2 0, Status.on⟩

/-- Follows the spec's words (for C3): the maximal initial run of
received-and-decoded devices, in arrival order. -/
def spec_collect : RecvStream → List Device
  | [] => []
  | none :: _ => []
  | some b :: rest =>
    match get_device_from_bytes b with
    | some (Except.ok d) => d :: spec_collect rest
    | _ => []

/-- Follows the spec's words (for C3): a failing first receive is a hard
receive error, a first receive that does not decode into a device is a
hard decode error, and otherwise discovery succeeds with the maximal
initial run of received-and-decoded devices. -/
def spec_retrieve (rs : RecvStream) : Except device_error (List Device) :=
  match rs with
  | [] => Except.error device_error.could_not_recieve_device_packet
  | none :: _ => Except.error device_error.could_not_recieve_device_packet
  | some b :: rest =>
    match get_device_from_bytes b with
    | some (Except.ok d) => Except.ok (d :: spec_collect rest)
    | _ => Except.error device_error.could_not_unserialize_device_packet

/-! ## Helper lemmas -/

/-- Or-ing any value with 0xFF forces the low byte to 0xFF. -/
theorem or_255_mod_256 (c : Nat) : (c ||| 255) % 256 = 255 := by
  have h255 : (255 : Nat) = 2 ^ 8 - 1 := by norm_num
  have h256 : (256 : Nat) = 2 ^ 8 := by norm_num
  apply Nat.eq_of_testBit_eq
  intro i
  rw [h256, Nat.testBit_mod_two_pow, Nat.testBit_or, h255, Nat.testBit_two_pow_sub_one]
  by_cases hi : i < 8 <;> simp [hi]

/-- A buffer that validates successfully has more than 4 bytes. -/
theorem validate_checksum_ok_length {b : List Nat}
    (h : validate_checksum b = some (Except.ok ())) : 4 < b.length := by
  by_contra hlen
  rw [validate_checksum, if_neg hlen] at h
  simp at h

/-! ## Claim C5 -/

/-- C5: validate_checksum is not total on buffers longer than 4 bytes: it
panics (models to `none`) whenever the declared span `buffer[1] + 2`
exceeds the buffer length, is shorter than the 4-byte trailer, or the u8
addition `buffer[1] + 2` overflows (`buffer[1]` is 254 or 255); it
returns a Result for every buffer with `4 ≤ buffer[1] + 2 ≤ length` and
`buffer[1] ≤ 253`. -/
theorem validate_checksum_totality :
    (∀ b : List Nat, 4 < b.length →
        (b.length < b.getD 1 0 + 2 ∨ b.getD 1 0 + 2 < 4 ∨ 254 ≤ b.getD 1 0) →
        validate_checksum b = none)
    ∧ (∀ b : List Nat, 4 ≤ b.getD 1 0 + 2 → b.getD 1 0 + 2 ≤ b.length →
        b.getD 1 0 ≤ 253 → ∃ r, validate_checksum b = some r) := by
  constructor
  · intro b hlen hbad
    rw [validate_checksum, if_pos hlen]
    by_cases hover : 255 < b.getD 1 0 + 2
    · rw [if_pos hover]
    · rw [if_neg hover]
      by_cases hoob : b.length < b.getD 1 0 + 2
      · rw [if_pos hoob]
      · rw [if_neg hoob]
        have hunder : b.getD 1 0 + 2 < 4 := by omega
        have hspan : (b.take (b.getD 1 0 + 2)).length = b.getD 1 0 + 2 := by
          rw [List.length_take]; omega
        simp only [hspan]
        rw [if_pos hunder]
  · intro b h4 hle h253
    by_cases hlen : 4 < b.length
    · rw [validate_checksum, if_pos hlen,
        if_neg (by omega : ¬ 255 < b.getD 1 0 + 2),
        if_neg (by omega : ¬ b.length < b.getD 1 0 + 2)]
      have hspan : (b.take (b.getD 1 0 + 2)).length = b.getD 1 0 + 2 := by
        rw [List.length_take]; omega
      simp only [hspan]
      rw [if_neg (by omega : ¬ b.getD 1 0 + 2 < 4)]
      split
      · exact ⟨_, rfl⟩
      · exact ⟨_, rfl⟩
    · rw [validate_checksum, if_neg hlen]
      exact ⟨_, rfl⟩

/-- Witness for C5: a 5-byte buffer whose declared span is out of bounds
panics, while the repository's own 11-byte test frame returns a Result. -/
theorem validate_checksum_totality_witness :
    validate_checksum [0, 9, 0, 0, 0] = none
    ∧ ∃ r, validate_checksum [165, 9, 15, 1, 0, 0, 0, 0x95, 0x1c, 0x82, 0xcb] = some r :=
  ⟨validate_checksum_totality.1 [0, 9, 0, 0, 0] (by decide) (by decide),
   validate_checksum_totality.2 [165, 9, 15, 1, 0, 0, 0, 0x95, 0x1c, 0x82, 0xcb]
     (by decide) (by decide) (by decide)⟩

/-! ## Claim C7 -/

/-- C7: the last trailer byte of the discovery command is
`(checksum | 0xFF)` truncated to a byte, which is always 0xFF, for every
current time. -/
theorem broadcast_last_byte_forced_to_ff (hour minute second : Nat) :
    (set_up_command_broadcast hour minute second).getD 10 0
      = (get_checksum [165, 5, 0, 0, hour % 256, minute % 256, second % 256] ||| 0x00ff) % 256
    ∧ (set_up_command_broadcast hour minute second).getD 10 0 = 255 := by
  refine ⟨rfl, ?_⟩
  show (get_checksum [165, 5, 0, 0, hour % 256, minute % 256, second % 256] ||| 255) % 256 = 255
  exact or_255_mod_256 _

/-! ## Claim C9 -/

/-- C9: get_device_from_bytes never returns PossibleCorruptedData: a
checksum that validates forces the buffer to be longer than 4 bytes, so
device extraction at offset 2 always succeeds once validation passed. -/
theorem get_device_never_possible_corrupted :
    (∀ b : List Nat, validate_checksum b = some (Except.ok ()) → 4 < b.length)
    ∧ ∀ b : List Nat,
        get_device_from_bytes b ≠ some (Except.error data_recieve_error.possible_corrupted_data) := by
  refine ⟨fun b h => validate_checksum_ok_length h, ?_⟩
  intro b hcontra
  match b with
  | [] => simp [get_device_from_bytes] at hcontra
  | first :: rest =>
    rw [get_device_from_bytes] at hcontra
    by_cases h165 : first = 165
    · rw [if_pos h165] at hcontra
      rcases hv : validate_checksum (first :: rest) with _ | r
      · rw [hv] at hcontra; simp at hcontra
      · rcases r with e | u
        · rw [hv] at hcontra; simp at hcontra
        · rcases u
          have hlen : 4 < (first :: rest).length := validate_checksum_ok_length hv
          rw [hv] at hcontra
          rw [create_buffer_from_device,
            if_pos (by omega : 2 < (first :: rest).length)] at hcontra
          simp at hcontra
    · rw [if_neg h165] at hcontra; simp at hcontra

set_option maxRecDepth 8192 in
/-- Witness for C9: the repository's test frame validates, so the first
conjunct applies to it and yields a length bound. -/
theorem get_device_never_possible_corrupted_witness :
    4 < ([165, 9, 15, 1, 0, 0, 0, 0x95, 0x1c, 0x82, 0xcb] : List Nat).length :=
  get_device_never_possible_corrupted.1 _ (by decide)

/-! ## Claim C10 -/

/-- C10: set_up_devices connects the send socket to the fixed broadcast
address and then transmits the discovery command, with no retry: a failed
connect yields CouldNotSendSetupCommand irrespective of the send and
receive behaviour, a successful connect followed by a failed send of the
discovery command yields CouldNotSetupDevices irrespective of the receive
behaviour, and when both succeed control proceeds to the receive loop. -/
theorem set_up_devices_connect_then_send :
    (∀ (ch : Channel) (hour minute second : Nat),
        ch.write_connect "255.255.255.255:62344" = Except.error () →
        set_up_devices ch hour minute second
          = some (Except.error device_error.could_not_send_setup_command))
    ∧ (∀ (ch : Channel) (hour minute second : Nat),
        ch.write_connect "255.255.255.255:62344" = Except.ok () →
        ch.write_send (set_up_command_broadcast hour minute second) = Except.error () →
        set_up_devices ch hour minute second
          = some (Except.error device_error.could_not_setup_devices))
    ∧ (∀ (ch : Channel) (hour minute second : Nat),
        ch.write_connect "255.255.255.255:62344" = Except.ok () →
        ch.write_send (set_up_command_broadcast hour minute second) = Except.ok () →
        set_up_devices ch hour minute second = retrieve_devices ch.read_recv) := by
  refine ⟨?_, ?_, ?_⟩
  · intro ch hour minute second hconn
    rw [set_up_devices, hconn]
  · intro ch hour minute second hconn hsend
    rw [set_up_devices, hconn, hsend]
  · intro ch hour minute second hconn hsend
    rw [set_up_devices, hconn, hsend]

/-- Witness for C10: concrete channels exercising the failed-connect and
failed-send paths. -/
theorem set_up_devices_connect_then_send_witness :
    set_up_devices ⟨fun _ => Except.error (), fun _ => Except.ok (), []⟩ 0 0 0
      = some (Except.error device_error.could_not_send_setup_command)
    ∧ set_up_devices ⟨fun _ => Except.ok (), fun _ => Except.error (), []⟩ 0 0 0
      = some (Except.error device_error.could_not_setup_devices) :=
  ⟨set_up_devices_connect_then_send.1 _ 0 0 0 rfl,
   set_up_devices_connect_then_send.2.1 _ 0 0 0 rfl rfl⟩

/-! ## Claim C1 -/

set_option maxRecDepth 8192 in
/-- C1 counterexample: at time 0:00:00 the discovery frame's byte 7 is
0xD8, but the top byte of the CRC-32 of that frame's own first 7 bytes
`[0xA5, 0x09, 0x00, 0x00, 0, 0, 0]` is 0xAF: the trailer is not the CRC
of the frame's first 7 bytes. -/
theorem broadcast_trailer_counterexample :
    (set_up_command_broadcast 0 0 0).getD 7 0
      ≠ (checksum_ieee ((set_up_command_broadcast 0 0 0).take 7) >>> 24) % 256 := by
  decide

/-- C1 (amended): the discovery frame's bytes 7, 8, 9 are the top three
bytes of the CRC-32 (IEEE) of the frame's first 7 bytes with the
command-kind byte replaced by 5 (the code checksums
`[0xA5, 0x05, 0x00, 0x00, hour, minute, second]` while the frame carries
command-kind 0x09), and byte 10 is that CRC or-ed with 0xFF, truncated to
a byte. -/
theorem broadcast_trailer_is_crc_of_cmd5_header (hour minute second : Nat) :
    (set_up_command_broadcast hour minute second).drop 7
      = [(checksum_ieee (((set_up_command_broadcast hour minute second).take 7).set 1 5) >>> 24) % 256,
         (checksum_ieee (((set_up_command_broadcast hour minute second).take 7).set 1 5) >>> 16) % 256,
         (checksum_ieee (((set_up_command_broadcast hour minute second).take 7).set 1 5) >>> 8) % 256,
         (checksum_ieee (((set_up_command_broadcast hour minute second).take 7).set 1 5) ||| 0x00ff) % 256] :=
  rfl

/-! ## Claim C2 -/

set_option maxRecDepth 8192 in
/-- C2 counterexample: on the 5-byte buffer [0,0,0,0,0] (longer than 4
bytes, declared span 0+2 = 2 shorter than the trailer) validate_checksum
panics instead of returning the verdict the claim prescribes. -/
theorem validate_checksum_spec_counterexample :
    validate_checksum [0, 0, 0, 0, 0] ≠ some (spec_validate_checksum [0, 0, 0, 0, 0]) := by
  decide

/-- C2 (amended): wherever validate_checksum does not panic — that is,
when the declared span satisfies `4 ≤ b[1]+2 ≤ b.length` and `b[1] ≤ 253`
— it returns the spec's verdict: Err(Mismatch) for buffers of 4 or fewer
bytes, and otherwise Ok exactly when the last 4 bytes of the span
`b[0 .. b[1]+2]`, read as a big-endian 32-bit integer, equal the CRC-32
(IEEE) of the span minus those 4 bytes, Err(Mismatch) otherwise. -/
theorem validate_checksum_matches_spec (b : List Nat)
    (h4 : 4 ≤ b.getD 1 0 + 2) (hle : b.getD 1 0 + 2 ≤ b.length) (h253 : b.getD 1 0 ≤ 253) :
    validate_checksum b = some (spec_validate_checksum b) := by
  by_cases hlen : 4 < b.length
  · have hspan : (b.take (b.getD 1 0 + 2)).length = b.getD 1 0 + 2 := by
      rw [List.length_take]; omega
    rw [validate_checksum, spec_validate_checksum, if_pos hlen,
      if_neg (by omega : ¬ 255 < b.getD 1 0 + 2),
      if_neg (by omega : ¬ b.length < b.getD 1 0 + 2),
      if_neg (by omega : ¬ b.length ≤ 4)]
    simp only [hspan, get_checksum]
    rw [if_neg (by omega : ¬ b.getD 1 0 + 2 < 4)]
    split
    · rfl
    · rfl
  · rw [validate_checksum, spec_validate_checksum, if_neg hlen, if_pos (by omega : b.length ≤ 4)]

set_option maxRecDepth 8192 in
/-- Witness for C2 (amended): the repository's own test frame satisfies
the no-panic bounds and validate_checksum agrees with the spec on it. -/
theorem validate_checksum_matches_spec_witness :
    validate_checksum [165, 9, 15, 1, 0, 0, 0, 0x95, 0x1c, 0x82, 0xcb]
      = some (spec_validate_checksum [165, 9, 15, 1, 0, 0, 0, 0x95, 0x1c, 0x82, 0xcb]) :=
  validate_checksum_matches_spec _ (by decide) (by decide) (by decide)

/-! ## Claim C4 -/

set_option maxRecDepth 8192 in
/-- C4 counterexample: on the buffer [0xA5, 0, 0, 0, 0, 0] the checksum
validation panics (declared span 2 is shorter than the trailer), so
get_device_from_bytes panics instead of performing the claimed five-case
analysis. -/
theorem get_device_spec_counterexample :
    get_device_from_bytes [165, 0, 0, 0, 0, 0] ≠ some (spec_decode [165, 0, 0, 0, 0, 0]) := by
  decide

/-- C4 (amended): whenever validate_checksum does not panic on the
buffer, get_device_from_bytes performs exactly the claimed case analysis
in order: EmptyBuffer for an empty buffer, ProtocolError when byte 0 is
not 0xA5, MismatchChecksum when validation fails, PossibleCorruptedData
when at most 2 bytes remain, and otherwise Ok with device_id = buffer[2]
and status On. -/
theorem get_device_matches_spec (b : List Nat) (hnp : validate_checksum b ≠ none) :
    get_device_from_bytes b = some (spec_decode b) := by
  match b with
  | [] => rfl
  | first :: rest =>
    by_cases h165 : first = 165
    · subst h165
      rw [get_device_from_bytes, if_pos rfl]
      rcases hv : validate_checksum (165 :: rest) with _ | r
      · exact absurd hv hnp
      · rcases r with e | u
        · rw [spec_decode, if_neg (by simp),
            if_neg (by simp : ¬ (165 :: rest : List Nat).getD 0 0 ≠ 165),
            if_pos (by rw [hv]; simp)]
        · rcases u
          have hlen : 4 < (165 :: rest : List Nat).length := validate_checksum_ok_length hv
          rw [create_buffer_from_device, if_pos (by omega : 2 < (165 :: rest : List Nat).length)]
          rw [spec_decode, if_neg (by simp),
            if_neg (by simp : ¬ (165 :: rest : List Nat).getD 0 0 ≠ 165),
            if_neg (by rw [hv]; simp),
            if_neg (by omega : ¬ (165 :: rest : List Nat).length ≤ 2)]
    · rw [get_device_from_bytes, if_neg h165,
        spec_decode, if_neg (by simp),
        if_pos (by simp [h165] : ((first :: rest : List Nat).getD 0 0 ≠ 165))]

set_option maxRecDepth 8192 in
/-- Witness for C4 (amended): the repository's test frame decodes to
device 15 and agrees with the spec's case analysis. -/
theorem get_device_matches_spec_witness :
    get_device_from_bytes [165, 9, 15, 1, 0, 0, 0, 0x95, 0x1c, 0x82, 0xcb]
      = some (spec_decode [165, 9, 15, 1, 0, 0, 0, 0x95, 0x1c, 0x82, 0xcb]) :=
  get_device_matches_spec _ (by decide)

/-! ## Claim C8 -/

/-- C8: a frame whose length equals its declared span and whose checksum
validates keeps validating after appending any number of zero padding
bytes: bytes beyond the declared-length span never affect the result. -/
theorem validate_checksum_zero_padding (f : List Nat) (k : Nat)
    (hlen : f.length = f.getD 1 0 + 2)
    (hok : validate_checksum f = some (Except.ok ())) :
    validate_checksum (f ++ List.replicate k 0) = some (Except.ok ()) := by
  have h4 : 4 < f.length := validate_checksum_ok_length hok
  have hover : ¬ 255 < f.getD 1 0 + 2 := by
    intro hover
    rw [validate_checksum, if_pos h4, if_pos hover] at hok
    simp at hok
  have hg1 : (f ++ List.replicate k 0).getD 1 0 = f.getD 1 0 := by
    rw [List.getD_eq_getElem?_getD, List.getElem?_append_left (by omega : 1 < f.length),
      ← List.getD_eq_getElem?_getD]
  have hgl : (f ++ List.replicate k 0).length = f.length + k := by
    rw [List.length_append, List.length_replicate]
  have hg4 : 4 < (f ++ List.replicate k 0).length := by omega
  have hgoob : ¬ (f ++ List.replicate k 0).length < f.getD 1 0 + 2 := by omega
  rw [validate_checksum, if_pos hg4, hg1, if_neg hover, if_neg hgoob,
    List.take_left' hlen]
  rw [validate_checksum, if_pos h4, if_neg hover,
    if_neg (by omega : ¬ f.length < f.getD 1 0 + 2), ← hlen, List.take_length] at hok
  exact hok

set_option maxRecDepth 8192 in
/-- Witness for C8: the repository's second checksum test, an 11-byte
valid frame with 5 extra bytes after the declared span, except with the
padding all zero. -/
theorem validate_checksum_zero_padding_witness :
    validate_checksum ([165, 9, 15, 1, 0, 0, 0, 0x95, 0x1c, 0x82, 0xcb] ++ List.replicate 5 0)
      = some (Except.ok ()) :=
  validate_checksum_zero_padding _ 5 (by decide) (by decide)

/-! ## Claim C3 -/

/-- When the spec-side discovery fails, the maximal initial run is empty:
the failure happened on the very first receive or decode. -/
theorem spec_collect_eq_nil_of_error {rs : RecvStream} {e : device_error}
    (h : spec_retrieve rs = Except.error e) : spec_collect rs = [] := by
  match rs with
  | [] => rfl
  | none :: rest => rfl
  | some b :: rest =>
    rw [spec_retrieve] at h
    rw [spec_collect]
    rcases hg : get_device_from_bytes b with _ | res
    · rfl
    · rcases res with e2 | d
      · rfl
      · rw [hg] at h; simp at h

/-- When the spec-side discovery succeeds, its devices are exactly the
maximal initial run. -/
theorem spec_retrieve_ok_eq_collect {rs : RecvStream} {ds : List Device}
    (h : spec_retrieve rs = Except.ok ds) : ds = spec_collect rs := by
  match rs with
  | [] => simp [spec_retrieve] at h
  | none :: rest => simp [spec_retrieve] at h
  | some b :: rest =>
    rw [spec_retrieve] at h
    rw [spec_collect]
    rcases hg : get_device_from_bytes b with _ | res
    · rw [hg] at h; simp at h
    · rcases res with e2 | d
      · rw [hg] at h; simp at h
      · rw [hg] at h
        simp at h
        rw [← h]

/-- C3: on any sequence of receive/decode outcomes (no buffer of which
makes the decoder panic), discovery returns the receive hard error if the
very first receive fails, the unserialize hard error if the first receive
succeeds but its decode fails, and otherwise Ok of exactly the maximal
initial run of received-and-decoded devices in arrival order, the first
later failure ending collection and being swallowed. -/
theorem retrieve_devices_matches_spec (rs : RecvStream)
    (hnp : ∀ b : List Nat, some b ∈ rs → get_device_from_bytes b ≠ none) :
    retrieve_devices rs = some (spec_retrieve rs) := by
  induction rs with
  | nil => rfl
  | cons r rest ih =>
    rcases r with _ | b
    · rfl
    · have hb : get_device_from_bytes b ≠ none := hnp b (List.mem_cons_self _ _)
      have hrest : ∀ b : List Nat, some b ∈ rest → get_device_from_bytes b ≠ none :=
        fun b hbm => hnp b (List.mem_cons_of_mem _ hbm)
      simp only [retrieve_devices, spec_retrieve]
      rcases hg : get_device_from_bytes b with _ | res
      · exact absurd hg hb
      · rcases res with e | d
        · rfl
        · rw [ih hrest]
          rcases hs : spec_retrieve rest with e2 | ds
          · rw [spec_collect_eq_nil_of_error hs]
          · rw [spec_retrieve_ok_eq_collect hs]

set_option maxRecDepth 8192 in
/-- Witness for C3: a transport whose first receive yields the
repository's test frame and whose second receive fails produces Ok with
exactly that one device. -/
theorem retrieve_devices_matches_spec_witness :
    retrieve_devices [some [165, 9, 15, 1, 0, 0, 0, 0x95, 0x1c, 0x82, 0xcb]]
      = some (spec_retrieve [some [165, 9, 15, 1, 0, 0, 0, 0x95, 0x1c, 0x82, 0xcb]])
    ∧ spec_retrieve [some [165, 9, 15, 1, 0, 0, 0, 0x95, 0x1c, 0x82, 0xcb]]
      = Except.ok [⟨15, Status.on⟩] :=
  ⟨retrieve_devices_matches_spec _ (by
      intro b hb
      simp only [List.mem_singleton, Option.some.injEq] at hb
      subst hb
      decide),
   by decide⟩

/-! ## CRC-32 algebra

The CRC-32 state update is GF(2)-linear, every state update is injective
on 32-bit states, and therefore flipping one covered message bit always
changes the checksum. These lemmas feed Claim C6. -/

/-- Xor left-commutativity, used to normalise xor expressions. -/
theorem xor_left_comm (a b c : Nat) : a ^^^ (b ^^^ c) = b ^^^ (a ^^^ c) := by
  rw [← Nat.xor_assoc, Nat.xor_comm a b, Nat.xor_assoc]

/-- The CRC-32 bit step is additive over xor. -/
theorem crc32_step_xor (a b : Nat) :
    crc32_step (a ^^^ b) = crc32_step a ^^^ crc32_step b := by
  rw [crc32_step, crc32_step, crc32_step, Nat.xor_mod_two_eq]
  rcases Nat.mod_two_eq_zero_or_one a with ha | ha <;>
    rcases Nat.mod_two_eq_zero_or_one b with hb | hb
  · simp [ha, hb, (by omega : (a + b) % 2 = 0), Nat.xor_div_two]
  · simp [ha, hb, (by omega : (a + b) % 2 = 1), Nat.xor_div_two, Nat.xor_assoc,
      Nat.xor_comm, xor_left_comm]
  · simp [ha, hb, (by omega : (a + b) % 2 = 1), Nat.xor_div_two, Nat.xor_assoc,
      Nat.xor_comm, xor_left_comm]
  · simp [ha, hb, (by omega : (a + b) % 2 = 0), Nat.xor_div_two, Nat.xor_assoc,
      Nat.xor_comm, xor_left_comm]

/-- The CRC-32 bit step keeps states below 2^32. -/
theorem crc32_step_lt (a : Nat) (h : a < 2 ^ 32) : crc32_step a < 2 ^ 32 := by
  rw [crc32_step]
  split
  · exact Nat.xor_lt_two_pow (by omega) (by norm_num)
  · omega

/-- The CRC-32 bit step sends no nonzero 32-bit state to zero. -/
theorem crc32_step_ne_zero (a : Nat) (h : a < 2 ^ 32) (hne : a ≠ 0) :
    crc32_step a ≠ 0 := by
  rw [crc32_step]
  split
  · rename_i hodd
    intro hz
    have hp : a / 2 = 0xEDB88320 := Nat.xor_eq_zero.mp hz
    omega
  · rename_i heven
    intro hz
    simp at heven
    omega

/-- Iterated CRC-32 bit steps are additive over xor. -/
theorem crc32_step_iterate_xor (n a b : Nat) :
    crc32_step^[n] (a ^^^ b) = crc32_step^[n] a ^^^ crc32_step^[n] b := by
  induction n generalizing a b with
  | zero => rfl
  | succ n ih =>
    rw [Function.iterate_succ_apply, Function.iterate_succ_apply,
      Function.iterate_succ_apply, crc32_step_xor, ih]

/-- Iterated CRC-32 bit steps keep states below 2^32. -/
theorem crc32_step_iterate_lt (n a : Nat) (h : a < 2 ^ 32) :
    crc32_step^[n] a < 2 ^ 32 := by
  induction n generalizing a with
  | zero => exact h
  | succ n ih => rw [Function.iterate_succ_apply]; exact ih _ (crc32_step_lt a h)

/-- Iterated CRC-32 bit steps send no nonzero 32-bit state to zero. -/
theorem crc32_step_iterate_ne_zero (n a : Nat) (h : a < 2 ^ 32) (hne : a ≠ 0) :
    crc32_step^[n] a ≠ 0 := by
  induction n generalizing a with
  | zero => exact hne
  | succ n ih =>
    rw [Function.iterate_succ_apply]
    exact ih _ (crc32_step_lt a h) (crc32_step_ne_zero a h hne)

/-- Xoring a difference into the message byte shifts the byte update by
the 8-fold iterated step of the difference. -/
theorem crc32_byte_xor_right (s b d : Nat) :
    crc32_byte s (b ^^^ d) = crc32_byte s b ^^^ crc32_step^[8] d := by
  rw [crc32_byte, crc32_byte, ← Nat.xor_assoc, crc32_step_iterate_xor]

/-- Xoring a difference into the state shifts the byte update by the
8-fold iterated step of the difference. -/
theorem crc32_byte_xor_left (s d b : Nat) :
    crc32_byte (s ^^^ d) b = crc32_byte s b ^^^ crc32_step^[8] d := by
  rw [crc32_byte, crc32_byte, Nat.xor_assoc, Nat.xor_comm d b, ← Nat.xor_assoc,
    crc32_step_iterate_xor]

/-- A state difference propagates through a CRC-32 run as iterated bit
steps, eight per remaining byte. -/
theorem crc32_run_xor_state (l : List Nat) (s d : Nat) :
    crc32_run (s ^^^ d) l = crc32_run s l ^^^ crc32_step^[8 * l.length] d := by
  induction l generalizing s d with
  | nil => simp [crc32_run]
  | cons x xs ih =>
    have hlen : 8 * (x :: xs).length = 8 * xs.length + 8 := by
      rw [List.length_cons]; ring
    simp only [crc32_run, List.foldl_cons] at ih ⊢
    rw [crc32_byte_xor_left, ih, ← Function.iterate_add_apply, hlen]

/-- Splitting a CRC-32 run at a distinguished byte. -/
theorem crc32_run_append_cons (s : Nat) (t r : List Nat) (x : Nat) :
    crc32_run s (t ++ x :: r) = crc32_run (crc32_byte (crc32_run s t) x) r := by
  simp [crc32_run, List.foldl_append]

/-- Flipping bits (a nonzero 32-bit difference) in one byte of the
message always changes the CRC-32. -/
theorem checksum_ieee_flip_segment (t r : List Nat) (g d : Nat)
    (hd0 : d ≠ 0) (hd32 : d < 2 ^ 32) :
    checksum_ieee (t ++ (g ^^^ d) :: r) ≠ checksum_ieee (t ++ g :: r) := by
  intro heq
  rw [checksum_ieee, checksum_ieee, crc32_run_append_cons, crc32_run_append_cons,
    crc32_byte_xor_right, crc32_run_xor_state, ← Function.iterate_add_apply] at heq
  have h1 : crc32_run (crc32_byte (crc32_run 0xFFFFFFFF t) g) r
        ^^^ crc32_step^[8 * r.length + 8] d
      = crc32_run (crc32_byte (crc32_run 0xFFFFFFFF t) g) r := by
    have h2 := congrArg (fun z => z ^^^ 0xFFFFFFFF) heq
    simpa [Nat.xor_cancel_right] using h2
  have h3 : crc32_step^[8 * r.length + 8] d = 0 := by
    have h4 := Nat.xor_cancel_left
      (crc32_run (crc32_byte (crc32_run 0xFFFFFFFF t) g) r)
      (crc32_step^[8 * r.length + 8] d)
    rw [h1] at h4
    simpa using h4.symm
  exact crc32_step_iterate_ne_zero _ d hd32 hd0 h3

/-- Xoring a nonzero 32-bit difference into any one list entry changes
the CRC-32 of the list. -/
theorem checksum_ieee_set_xor_ne (l : List Nat) (i d : Nat)
    (hi : i < l.length) (hd0 : d ≠ 0) (hd32 : d < 2 ^ 32) :
    checksum_ieee (l.set i (l.getD i 0 ^^^ d)) ≠ checksum_ieee l := by
  have hgi : l.getD i 0 = l[i] := by
    rw [List.getD_eq_getElem?_getD, List.getElem?_eq_getElem hi]
    rfl
  have hl : l = l.take i ++ l.getD i 0 :: l.drop (i + 1) := by
    conv_lhs => rw [← List.take_append_drop i l, List.drop_eq_getElem_cons hi]
    rw [hgi]
  have hset : l.set i (l.getD i 0 ^^^ d)
      = l.take i ++ (l.getD i 0 ^^^ d) :: l.drop (i + 1) :=
    List.set_eq_take_cons_drop _ hi
  rw [hset]
  conv_rhs => rw [hl]
  exact checksum_ieee_flip_segment _ _ _ _ hd0 hd32

/-! ## Claim C6 -/

set_option maxRecDepth 8192 in
/-- C6 counterexample: the repository's valid test frame is accepted, yet
flipping bit 7 of its byte 1 — an index inside the checksum-covered span
— drives the declared span out of bounds, so validate_checksum panics
(models to none) instead of returning Err(Mismatch). -/
theorem validate_checksum_bit_flip_counterexample :
    validate_checksum [165, 9, 15, 1, 0, 0, 0, 0x95, 0x1c, 0x82, 0xcb] = some (Except.ok ())
    ∧ validate_checksum (([165, 9, 15, 1, 0, 0, 0, 0x95, 0x1c, 0x82, 0xcb] : List Nat).set 1
        (([165, 9, 15, 1, 0, 0, 0, 0x95, 0x1c, 0x82, 0xcb] : List Nat).getD 1 0 ^^^ 2 ^ 7))
      ≠ some (Except.error checksum_error.mismatch) :=
  ⟨by decide, by decide⟩

/-- C6 (amended): for a frame accepted by validate_checksum, flipping a
single bit at any byte index inside the checksum-covered span other than
the length byte at index 1 makes validate_checksum return Err(Mismatch).
(A flip at index 1 redefines the span itself, and can make the validator
panic or even accept, instead.) -/
theorem validate_checksum_bit_flip (f : List Nat) (i j : Nat)
    (hok : validate_checksum f = some (Except.ok ()))
    (hi : i + 4 < f.getD 1 0 + 2) (hne1 : i ≠ 1) (hj : j < 8) :
    validate_checksum (f.set i (f.getD i 0 ^^^ 2 ^ j))
      = some (Except.error checksum_error.mismatch) := by
  have h4 : 4 < f.length := validate_checksum_ok_length hok
  have hover : ¬ 255 < f.getD 1 0 + 2 := by
    intro hover
    rw [validate_checksum, if_pos h4, if_pos hover] at hok
    simp at hok
  have hoob : ¬ f.length < f.getD 1 0 + 2 := by
    intro hoob
    rw [validate_checksum, if_pos h4, if_neg hover, if_pos hoob] at hok
    simp at hok
  have hspan : (f.take (f.getD 1 0 + 2)).length = f.getD 1 0 + 2 := by
    rw [List.length_take]; omega
  have hu : ¬ f.getD 1 0 + 2 < 4 := by omega
  rw [validate_checksum, if_pos h4, if_neg hover, if_neg hoob] at hok
  simp only [hspan] at hok
  rw [if_neg hu] at hok
  have hcond : be32 (((f.take (f.getD 1 0 + 2)).drop (f.getD 1 0 + 2 - 4)).getD 0 0)
      (((f.take (f.getD 1 0 + 2)).drop (f.getD 1 0 + 2 - 4)).getD 1 0)
      (((f.take (f.getD 1 0 + 2)).drop (f.getD 1 0 + 2 - 4)).getD 2 0)
      (((f.take (f.getD 1 0 + 2)).drop (f.getD 1 0 + 2 - 4)).getD 3 0)
      = get_checksum ((f.take (f.getD 1 0 + 2)).take (f.getD 1 0 + 2 - 4)) := by
    by_contra hc
    rw [if_neg hc] at hok
    simp at hok
  have hne0 : (2 : Nat) ^ j ≠ 0 := (Nat.pos_pow_of_pos j (by norm_num)).ne'
  have hd32 : (2 : Nat) ^ j < 2 ^ 32 :=
    Nat.pow_lt_pow_right (by norm_num) (by omega)
  have hidx : i < f.getD 1 0 + 2 - 4 := by omega
  have hg4 : 4 < (f.set i (f.getD i 0 ^^^ 2 ^ j)).length := by
    rw [List.length_set]; omega
  have hg1 : (f.set i (f.getD i 0 ^^^ 2 ^ j)).getD 1 0 = f.getD 1 0 := by
    rw [List.getD_eq_getElem?_getD, List.getElem?_set_ne hne1, ← List.getD_eq_getElem?_getD]
  have hgoob : ¬ (f.set i (f.getD i 0 ^^^ 2 ^ j)).length < f.getD 1 0 + 2 := by
    rw [List.length_set]; omega
  have hspang : ((f.take (f.getD 1 0 + 2)).set i (f.getD i 0 ^^^ 2 ^ j)).length
      = f.getD 1 0 + 2 := by
    rw [List.length_set, hspan]
  have hgipre : ((f.take (f.getD 1 0 + 2)).take (f.getD 1 0 + 2 - 4)).getD i 0
      = f.getD i 0 := by
    rw [List.getD_eq_getElem?_getD, List.getElem?_take_of_lt hidx,
      List.getElem?_take_of_lt (by omega : i < f.getD 1 0 + 2), ← List.getD_eq_getElem?_getD]
  have hprelen : i < ((f.take (f.getD 1 0 + 2)).take (f.getD 1 0 + 2 - 4)).length := by
    rw [List.length_take, List.length_take]; omega
  rw [validate_checksum, if_pos hg4, hg1, if_neg hover, if_neg hgoob, List.set_take]
  simp only [hspang]
  rw [if_neg hu, List.drop_set, if_pos hidx, List.set_take]
  split
  · rename_i hcon
    exfalso
    rw [hcond, ← hgipre] at hcon
    simp only [get_checksum] at hcon
    exact checksum_ieee_set_xor_ne _ i (2 ^ j) hprelen hne0 hd32 hcon.symm
  · rfl

set_option maxRecDepth 8192 in
/-- Witness for C6 (amended): flipping bit 0 of byte 2 (the device id) of
the repository's valid test frame yields a checksum mismatch. -/
theorem validate_checksum_bit_flip_witness :
    validate_checksum (([165, 9, 15, 1, 0, 0, 0, 0x95, 0x1c, 0x82, 0xcb] : List Nat).set 2
        (([165, 9, 15, 1, 0, 0, 0, 0x95, 0x1c, 0x82, 0xcb] : List Nat).getD 2 0 ^^^ 2 ^ 0))
      = some (Except.error checksum_error.mismatch) :=
  validate_checksum_bit_flip _ 2 0 (by decide) (by decide) (by decide) (by decide)

end Jarvis
